import Mathlib

/-!
Verification of the Mastra `@mastra/otel-exporter` span-conversion core
(`observability/otel-exporter/src/otel-span.ts` and
`observability/otel-exporter/src/span-converter.ts`).

The pure conversion (`OtelSpan` construction, attribute mapping, provider
normalization, naming, timing and status derivation) is embedded as executable
Lean functions translated line-by-line from the TypeScript source.  JavaScript
idioms are modelled explicitly:

* optional object fields become `Option`;
* a JavaScript `Date` is modelled by its `getTime()` value in milliseconds (`Int`);
* `Math.floor (a / b)` is `Int.fdiv`, the JavaScript remainder operator `%` is
  `Int.tmod` (both verified against the ECMAScript semantics for all signs);
* truthiness tests (`if (x)`, `||`, `&&`) are modelled by explicit emptiness /
  zero tests on the corresponding value;
* plain objects used as string-keyed dictionaries become association lists in
  insertion order, with JavaScript assignment semantics (update in place for an
  existing key, append for a fresh key).

The stateful `SpanConverter` (lazy single-flight initialization of the shared
resource / instrumentation-scope context) is embedded as a small-step transition
relation whose atomic steps are the synchronous regions of the JavaScript code
between `await` suspension points.
-/

namespace Mastra

/-- Modelled from the spec: the `SpanType` enum lives in the external
`@mastra/core/observability` package, which is not part of the reviewed
sources.  The spec gives the closed set of kinds MODEL_GENERATION, TOOL_CALL,
MCP_TOOL_CALL, AGENT_RUN, WORKFLOW_RUN, OTHER; the raw string value of each
kind is modelled as that name. -/
inductive SpanType where
  | MODEL_GENERATION
  | TOOL_CALL
  | MCP_TOOL_CALL
  | AGENT_RUN
  | WORKFLOW_RUN
  | OTHER
deriving DecidableEq

/-- Modelled from the spec: raw string value of a span kind (used for the
`mastra.span.type` attribute and, lowercased, for generic attribute keys). -/
def SpanType.raw : SpanType → String
  | .MODEL_GENERATION => "MODEL_GENERATION"
  | .TOOL_CALL => "TOOL_CALL"
  | .MCP_TOOL_CALL => "MCP_TOOL_CALL"
  | .AGENT_RUN => "AGENT_RUN"
  | .WORKFLOW_RUN => "WORKFLOW_RUN"
  | .OTHER => "OTHER"

/-- JavaScript numbers carried through the converter (token counts, generation
parameters, ports, steps) are only copied, never computed with, so they are
modelled as integers. -/
abbrev JSNumber := Int

/-- JavaScript `toLowerCase()` modelled on the ASCII range: `Char.toLower`
maps exactly the ASCII uppercase letters.  (Defined via the character list so
that it evaluates inside the kernel.) -/
def jsToLower (s : String) : String :=
  String.mk (s.toList.map Char.toLower)

/-- Value of one OpenTelemetry attribute as produced by this converter. -/
inductive AttrValue where
  | str (s : String)
  | int (n : JSNumber)
  | bool (b : Bool)
deriving DecidableEq

/-- Attribute sets model plain JavaScript objects used as string-keyed
dictionaries, as association lists in insertion order. -/
abbrev AttrMap := List (String × AttrValue)

/-- Dictionary lookup (`attributes[k]`); `none` models `undefined`. -/
def getAttr (m : AttrMap) (k : String) : Option AttrValue :=
  (m.find? (fun p => p.1 = k)).map (fun p => p.2)

/-- JavaScript assignment `attributes[k] = v`: an existing key is updated in
place, a fresh key is appended. -/
def setAttr (m : AttrMap) (k : String) (v : AttrValue) : AttrMap :=
  if m.any (fun p => p.1 = k) then
    m.map (fun p => if p.1 = k then (k, v) else p)
  else
    m ++ [(k, v)]

/-- JavaScript truthiness of an attribute lookup (`!attributes[k]` negates
this): `undefined` (absent), the empty string, the number 0 and `false` are
falsy, everything else is truthy. -/
def truthyAttr : Option AttrValue → Bool
  | none => false
  | some (.str s) => s != ""
  | some (.int n) => n != 0
  | some (.bool b) => b

/-- Payload of `span.input` / `span.output`.  The source keeps string payloads
as-is and serializes anything else with `JSON.stringify`; a non-string payload
is modelled by its serialization. -/
inductive IOValue where
  | str (s : String)
  | structured (json : String)
deriving DecidableEq

/-- The serialized payload string (`typeof v === 'string' ? v : JSON.stringify(v)`). -/
def IOValue.serialize : IOValue → String
  | .str s => s
  | .structured j => j

/-- Value of one user-supplied metadata entry.  A JavaScript `null` (and an
explicitly-`undefined` entry) is the `null` constructor; a non-primitive value
is modelled by its `JSON.stringify` image. -/
inductive MetaValue where
  | null
  | str (s : String)
  | num (n : JSNumber)
  | bool (b : Bool)
  | obj (json : String)
deriving DecidableEq

/-- String that a metadata value turns into when it is used as a JavaScript
property key: objects via their `JSON.stringify` image (computed before the
assignment in the source), primitives via JavaScript string coercion. -/
def MetaValue.toAttrKey : MetaValue → String
  | .null => "null"
  | .str s => s
  | .num n => toString n
  | .bool b => if b then "true" else "false"
  | .obj j => j

/-- Token-usage payload of a model-generation span (all fields optional). -/
structure Usage where
  inputTokens : Option JSNumber := none
  promptTokens : Option JSNumber := none
  outputTokens : Option JSNumber := none
  completionTokens : Option JSNumber := none
  reasoningTokens : Option JSNumber := none
  cachedInputTokens : Option JSNumber := none
deriving DecidableEq

/-- Generation-parameter payload of a model-generation span.  `stopSequences`
is a structured list in the source, serialized with `JSON.stringify` when
copied; it is modelled by its serialization. -/
structure ModelParameters where
  temperature : Option JSNumber := none
  maxOutputTokens : Option JSNumber := none
  topP : Option JSNumber := none
  topK : Option JSNumber := none
  presencePenalty : Option JSNumber := none
  frequencyPenalty : Option JSNumber := none
  stopSequences : Option String := none
  seed : Option JSNumber := none
deriving DecidableEq

/-- Variant attribute payload of a MODEL_GENERATION span. -/
structure ModelGenerationAttributes where
  model : Option String := none
  provider : Option String := none
  usage : Option Usage := none
  parameters : Option ModelParameters := none
  finishReason : Option String := none
  responseModel : Option String := none
  responseId : Option String := none
  serverAddress : Option String := none
  serverPort : Option JSNumber := none
deriving DecidableEq

/-- Variant attribute payload of a TOOL_CALL span. -/
structure ToolCallAttributes where
  toolId : Option String := none
  toolDescription : Option String := none
deriving DecidableEq

/-- Variant attribute payload of an MCP_TOOL_CALL span. -/
structure MCPToolCallAttributes where
  toolId : Option String := none
  mcpServer : Option String := none
deriving DecidableEq

/-- Variant attribute payload of an AGENT_RUN span.  `availableTools` is a
structured list serialized with `JSON.stringify` when copied, modelled by its
serialization.  `instructions` is a required string in the external
`@mastra/core` declaration (the spec: unconditionally copied). -/
structure AgentRunAttributes where
  agentId : Option String := none
  agentName : Option String := none
  conversationId : Option String := none
  maxSteps : Option JSNumber := none
  availableTools : Option String := none
  instructions : String := ""
deriving DecidableEq

/-- Variant attribute payload of a WORKFLOW_RUN span. -/
structure WorkflowRunAttributes where
  workflowId : Option String := none
deriving DecidableEq

/-- Kind tag together with the kind-specific optional attribute payload: the
TypeScript `AnyExportedSpan` union ties the `type` tag to the shape of
`attributes`. -/
inductive SpanKindData where
  | MODEL_GENERATION (attrs : Option ModelGenerationAttributes)
  | TOOL_CALL (attrs : Option ToolCallAttributes)
  | MCP_TOOL_CALL (attrs : Option MCPToolCallAttributes)
  | AGENT_RUN (attrs : Option AgentRunAttributes)
  | WORKFLOW_RUN (attrs : Option WorkflowRunAttributes)
  | OTHER
deriving DecidableEq

/-- Kind tag of the variant payload. -/
def SpanKindData.type : SpanKindData → SpanType
  | .MODEL_GENERATION _ => .MODEL_GENERATION
  | .TOOL_CALL _ => .TOOL_CALL
  | .MCP_TOOL_CALL _ => .MCP_TOOL_CALL
  | .AGENT_RUN _ => .AGENT_RUN
  | .WORKFLOW_RUN _ => .WORKFLOW_RUN
  | .OTHER => .OTHER

/-- Failure-descriptor details; the source only reads the `stack` property of
the free-form `details` record, modelled as an optional string. -/
structure ErrorDetails where
  stack : Option String := none
deriving DecidableEq

/-- Failure descriptor of a span (`errorInfo`). -/
structure ErrorInfo where
  message : String
  id : Option String := none
  domain : Option String := none
  category : Option String := none
  details : Option ErrorDetails := none
deriving DecidableEq

/-- Input of the conversion: a Mastra exported span snapshot.  `startTime` and
`endTime` are `Date` values modelled by their `getTime()` milliseconds. -/
structure ExportedSpan where
  id : String
  traceId : String
  name : String
  parentSpanId : Option String := none
  startTime : Int
  endTime : Option Int := none
  input : Option IOValue := none
  output : Option IOValue := none
  data : SpanKindData
  errorInfo : Option ErrorInfo := none
  metadata : Option (List (String × MetaValue)) := none
deriving DecidableEq

/-- Kind tag of the span. -/
def ExportedSpan.type (s : ExportedSpan) : SpanType := s.data.type

/-- OpenTelemetry span kinds used by the converter. -/
inductive OtelSpanKind where
  | CLIENT
  | INTERNAL
deriving DecidableEq

/-- Source lines 120-128: CLIENT for MODEL_GENERATION and MCP_TOOL_CALL,
INTERNAL for every other kind. -/
def getSpanKind : SpanType → OtelSpanKind
  | .MODEL_GENERATION => .CLIENT
  | .MCP_TOOL_CALL => .CLIENT
  | _ => .INTERNAL

/-- An OpenTelemetry `HrTime` pair: (seconds, nanoseconds). -/
abbrev HrTime := Int × Int

/-- Source lines 133-138: `Math.floor(ms / 1000)` seconds and
`(ms % 1000) * 1000000` nanoseconds.  `Math.floor` of the real quotient is
floor division (`Int.fdiv`); the JavaScript remainder operator truncates
toward zero (`Int.tmod`). -/
def dateToHrTime (ms : Int) : HrTime :=
  (Int.fdiv ms 1000, Int.tmod ms 1000 * 1000000)

/-- Source lines 143-157: fixed per-kind operation verb, with the lowercased
raw kind string as fallback. -/
def getOperationName (span : ExportedSpan) : String :=
  match span.type with
  | .MODEL_GENERATION => "chat"
  | .TOOL_CALL => "execute_tool"
  | .MCP_TOOL_CALL => "execute_tool"
  | .AGENT_RUN => "invoke_agent"
  | .WORKFLOW_RUN => "invoke_workflow"
  | .OTHER => jsToLower span.type.raw

/-- Characters kept by `sanitizeSpanName` (regex class `\p{L}\p{N}._ -` with a
space).  The Unicode letter/number classes are modelled by `Char.isAlpha` /
`Char.isDigit`, which agree with them on the ASCII range. -/
def isSpanNameChar (c : Char) : Bool :=
  c.isAlpha || c.isDigit || c == '.' || c == '_' || c == ' ' || c == '-'

/-- Source lines 161-163: strip every character outside letters, digits, dot,
underscore, space and dash. -/
def sanitizeSpanName (name : String) : String :=
  String.mk (name.toList.filter isSpanNameChar)

/-- Source lines 165-191: the natural identifier of a span, `null` for kinds
without one.  `attrs?.field ?? "unknown"` keeps a present empty string
(nullish coalescing only skips `null` / `undefined`). -/
def getSpanIdentifier (span : ExportedSpan) : Option String :=
  match span.data with
  | .MODEL_GENERATION attrs =>
      some ((attrs.bind (fun a => a.model)).getD "unknown")
  | .TOOL_CALL attrs =>
      some ((attrs.bind (fun a => a.toolId)).getD "unknown")
  | .MCP_TOOL_CALL attrs =>
      some ((attrs.bind (fun a => a.toolId)).getD "unknown")
  | .AGENT_RUN attrs =>
      some (((attrs.bind (fun a => a.agentName)).orElse
        (fun _ => attrs.bind (fun a => a.agentId))).getD "unknown")
  | .WORKFLOW_RUN attrs =>
      some ((attrs.bind (fun a => a.workflowId)).getD "unknown")
  | .OTHER => none

/-- Source lines 196-206: `if (identifier)` is a JavaScript truthiness test,
so a non-null, non-empty identifier yields "operation identifier" and
everything else falls back to the sanitized original name. -/
def getSpanName (span : ExportedSpan) : String :=
  match getSpanIdentifier span with
  | some identifier =>
      if identifier != "" then getOperationName span ++ " " ++ identifier
      else sanitizeSpanName span.name
  | none => sanitizeSpanName span.name

/-- Source lines 416-432: canonical OTel provider keys mapped to fuzzy alias
tokens, in object-literal insertion order (including the duplicated
"googlegenai" alias). -/
def PROVIDER_ALIASES : List (String × List String) :=
  [ ("anthropic", ["anthropic", "claude"]),
    ("aws.bedrock", ["awsbedrock", "bedrock", "amazonbedrock"]),
    ("azure.ai.inference", ["azureaiinference", "azureinference"]),
    ("azure.ai.openai", ["azureaiopenai", "azureopenai", "msopenai", "microsoftopenai"]),
    ("cohere", ["cohere"]),
    ("deepseek", ["deepseek"]),
    ("gcp.gemini", ["gcpgemini", "gemini"]),
    ("gcp.gen_ai", ["gcpgenai", "googlegenai", "googlegenai", "googleai"]),
    ("gcp.vertex_ai", ["gcpvertexai", "vertexai"]),
    ("groq", ["groq"]),
    ("ibm.watsonx.ai", ["ibmwatsonxai", "watsonx", "watsonxai"]),
    ("mistral_ai", ["mistral", "mistralai"]),
    ("openai", ["openai", "oai"]),
    ("perplexity", ["perplexity", "pplx"]),
    ("x_ai", ["xai", "x-ai", "x_ai", "x.com ai"]) ]

/-- Source lines 438-440: lowercase the input, then keep only the characters
matching `[a-z0-9]`. -/
def normalizeProviderString (input : String) : String :=
  String.mk ((jsToLower input).toList.filter
    (fun c => (decide ('a' ≤ c) && decide (c ≤ 'z')) ||
              (decide ('0' ≤ c) && decide (c ≤ '9'))))

/-- Source lines 446-459: scan the alias table in order and return the first
canonical key one of whose aliases equals the normalized token; otherwise
return the lowercased original input. -/
def normalizeProvider (providerName : String) : String :=
  match PROVIDER_ALIASES.find?
      (fun entry => entry.2.contains (normalizeProviderString providerName)) with
  | some entry => entry.1
  | none => jsToLower providerName

/-- JSON string quoting as performed by `JSON.stringify` on a plain string
(quote and backslash escaping; control-character escapes are not modelled
since no reviewed value contains them). -/
def jsonQuote (s : String) : String :=
  "\"" ++ String.join (s.toList.map (fun c =>
    if c == '"' then "\\\"" else if c == '\\' then "\\\\"
    else String.singleton c)) ++ "\""

/-- Modelled from the spec: the nested message-format converter imported from
`./gen-ai-messages` is not part of the reviewed sources; the spec calls it "a
nested message-format converter external to this spec" and no claim inspects
its output value, so it is modelled as the identity on the serialized payload. -/
def convertMastraMessagesToGenAIMessages (s : String) : String := s

/-- Source lines 396-407, body of the metadata `forEach`: skip the entry when
`attributes[k]` is truthy, skip `null` / `undefined` values, and otherwise
perform the (swapped) assignment `attributes[value] = 'mastra.metadata.' + k`. -/
def addMetadataAttr (m : AttrMap) (k : String) (v : MetaValue) : AttrMap :=
  if truthyAttr (getAttr m k) then m
  else
    match v with
    | .null => m
    | _ => setAttr m v.toAttrKey (.str ("mastra.metadata." ++ k))

/-- Source lines 212-392 of `getAttributes`: every attribute written before
the metadata pass, in source order. -/
def baseAttributes (span : ExportedSpan) : AttrMap :=
  let spanType := jsToLower span.type.raw
  let a : AttrMap := []
  let a := setAttr a "gen_ai.operation.name" (.str (getOperationName span))
  let a := setAttr a "mastra.span.type" (.str span.type.raw)
  -- input routing (lines 224-234)
  let a :=
    match span.input with
    | none => a
    | some v =>
      let inputStr := v.serialize
      match span.data with
      | .MODEL_GENERATION _ =>
          setAttr a "gen_ai.input.messages"
            (.str (convertMastraMessagesToGenAIMessages inputStr))
      | .TOOL_CALL _ => setAttr a "gen_ai.tool.call.arguments" (.str inputStr)
      | .MCP_TOOL_CALL _ => setAttr a "gen_ai.tool.call.arguments" (.str inputStr)
      | _ => setAttr a ("mastra." ++ spanType ++ ".input") (.str inputStr)
  -- output routing (lines 236-248)
  let a :=
    match span.output with
    | none => a
    | some v =>
      let outputStr := v.serialize
      match span.data with
      | .MODEL_GENERATION _ =>
          setAttr a "gen_ai.output.messages"
            (.str (convertMastraMessagesToGenAIMessages outputStr))
      | .TOOL_CALL _ => setAttr a "gen_ai.tool.call.result" (.str outputStr)
      | .MCP_TOOL_CALL _ => setAttr a "gen_ai.tool.call.result" (.str outputStr)
      | _ => setAttr a ("mastra." ++ spanType ++ ".output") (.str outputStr)
  -- model-generation block (lines 251-329)
  let a :=
    match span.data with
    | .MODEL_GENERATION (some modelAttrs) =>
      let a :=
        match modelAttrs.model with
        | some v => if v != "" then setAttr a "gen_ai.request.model" (.str v) else a
        | none => a
      let a :=
        match modelAttrs.provider with
        | some v =>
            if v != "" then setAttr a "gen_ai.provider.name" (.str (normalizeProvider v))
            else a
        | none => a
      let a :=
        match modelAttrs.usage with
        | none => a
        | some usage =>
          let inputTokens := usage.inputTokens.orElse (fun _ => usage.promptTokens)
          let outputTokens := usage.outputTokens.orElse (fun _ => usage.completionTokens)
          let a :=
            match inputTokens with
            | some t => setAttr a "gen_ai.usage.input_tokens" (.int t)
            | none => a
          let a :=
            match outputTokens with
            | some t => setAttr a "gen_ai.usage.output_tokens" (.int t)
            | none => a
          let a :=
            match usage.reasoningTokens with
            | some t => setAttr a "gen_ai.usage.reasoning_tokens" (.int t)
            | none => a
          match usage.cachedInputTokens with
          | some t => setAttr a "gen_ai.usage.cached_input_tokens" (.int t)
          | none => a
      let a :=
        match modelAttrs.parameters with
        | none => a
        | some ps =>
          let a :=
            match ps.temperature with
            | some v => setAttr a "gen_ai.request.temperature" (.int v)
            | none => a
          let a :=
            match ps.maxOutputTokens with
            | some v => setAttr a "gen_ai.request.max_tokens" (.int v)
            | none => a
          let a :=
            match ps.topP with
            | some v => setAttr a "gen_ai.request.top_p" (.int v)
            | none => a
          let a :=
            match ps.topK with
            | some v => setAttr a "gen_ai.request.top_k" (.int v)
            | none => a
          let a :=
            match ps.presencePenalty with
            | some v => setAttr a "gen_ai.request.presence_penalty" (.int v)
            | none => a
          let a :=
            match ps.frequencyPenalty with
            | some v => setAttr a "gen_ai.request.frequency_penalty" (.int v)
            | none => a
          let a :=
            match ps.stopSequences with
            | some v => setAttr a "gen_ai.request.stop_sequences" (.str v)
            | none => a
          match ps.seed with
          | some v => if v != 0 then setAttr a "gen_ai.request.seed" (.int v) else a
          | none => a
      let a :=
        match modelAttrs.finishReason with
        | some v =>
            if v != "" then
              setAttr a "gen_ai.response.finish_reasons" (.str ("[" ++ jsonQuote v ++ "]"))
            else a
        | none => a
      let a :=
        match modelAttrs.responseModel with
        | some v => if v != "" then setAttr a "gen_ai.response.model" (.str v) else a
        | none => a
      let a :=
        match modelAttrs.responseId with
        | some v => if v != "" then setAttr a "gen_ai.response.id" (.str v) else a
        | none => a
      let a :=
        match modelAttrs.serverAddress with
        | some v => if v != "" then setAttr a "server.address" (.str v) else a
        | none => a
      match modelAttrs.serverPort with
      | some v => setAttr a "server.port" (.int v)
      | none => a
    | _ => a
  -- tool / MCP-tool block (lines 332-355)
  let a :=
    match span.data with
    | .TOOL_CALL (some toolAttrs) =>
      let a :=
        match toolAttrs.toolId with
        | some v => if v != "" then setAttr a "gen_ai.tool.name" (.str v) else a
        | none => a
      match toolAttrs.toolDescription with
      | some v => if v != "" then setAttr a "gen_ai.tool.description" (.str v) else a
      | none => a
    | .MCP_TOOL_CALL (some mcpAttrs) =>
      let a :=
        match mcpAttrs.toolId with
        | some v => if v != "" then setAttr a "gen_ai.tool.name" (.str v) else a
        | none => a
      match mcpAttrs.mcpServer with
      | some v => if v != "" then setAttr a "server.address" (.str v) else a
      | none => a
    | _ => a
  -- agent block (lines 358-380)
  let a :=
    match span.data with
    | .AGENT_RUN (some agentAttrs) =>
      let a :=
        match agentAttrs.agentId with
        | some v => if v != "" then setAttr a "gen_ai.agent.id" (.str v) else a
        | none => a
      let a :=
        match agentAttrs.agentName with
        | some v => if v != "" then setAttr a "gen_ai.agent.name" (.str v) else a
        | none => a
      let a :=
        match agentAttrs.conversationId with
        | some v => if v != "" then setAttr a "gen_ai.conversation.id" (.str v) else a
        | none => a
      let a :=
        match agentAttrs.maxSteps with
        | some v =>
            if v != 0 then setAttr a ("mastra." ++ spanType ++ ".max_steps") (.int v)
            else a
        | none => a
      let a :=
        match agentAttrs.availableTools with
        | some v => setAttr a "gen_ai.tool.definitions" (.str v)
        | none => a
      setAttr a "gen_ai.system_instructions" (.str agentAttrs.instructions)
    | _ => a
  -- error block (lines 383-392)
  match span.errorInfo with
  | none => a
  | some e =>
    let a := setAttr a "error.type"
      (.str (match e.id with
             | some i => if i != "" then i else "unknown"
             | none => "unknown"))
    let a := setAttr a "error.message" (.str e.message)
    let a :=
      match e.domain with
      | some d => if d != "" then setAttr a "error.domain" (.str d) else a
      | none => a
    match e.category with
    | some c => if c != "" then setAttr a "error.category" (.str c) else a
    | none => a

/-- Source lines 212-411, `getAttributes`: the base attributes followed by the
metadata pass over `Object.entries(span.metadata)` in insertion order. -/
def getAttributes (span : ExportedSpan) : AttrMap :=
  match span.metadata with
  | none => baseAttributes span
  | some entries =>
      entries.foldl (fun m kv => addMetadataAttr m kv.1 kv.2) (baseAttributes span)

/-- OpenTelemetry trace-flags value `TraceFlags.SAMPLED`. -/
def TraceFlagsSAMPLED : Nat := 1

/-- OpenTelemetry span context as built by the converter. -/
structure SpanContext where
  traceId : String
  spanId : String
  traceFlags : Nat
  isRemote : Bool
deriving DecidableEq

/-- OpenTelemetry status codes. -/
inductive SpanStatusCode where
  | UNSET
  | OK
  | ERROR
deriving DecidableEq

/-- OpenTelemetry span status (`message` only set on error). -/
structure SpanStatus where
  code : SpanStatusCode
  message : Option String := none
deriving DecidableEq

/-- OpenTelemetry timed event as built by the converter. -/
structure TimedEvent where
  name : String
  attributes : AttrMap
  time : HrTime
  droppedAttributesCount : Nat
deriving DecidableEq

/-- OpenTelemetry resource, modelled by its attribute set. -/
structure OtelResource where
  attrs : List (String × String)
deriving DecidableEq

/-- OpenTelemetry instrumentation scope (package name and version). -/
structure InstrumentationScope where
  name : String
  version : String
deriving DecidableEq

/-- The produced `ReadableSpan` value.  `spanContext` is a constant function in
the source and is modelled by the value it returns. -/
structure OtelSpan where
  name : String
  kind : OtelSpanKind
  spanContext : SpanContext
  parentSpanContext : Option SpanContext
  startTime : HrTime
  endTime : HrTime
  status : SpanStatus
  attributes : AttrMap
  links : List Unit
  events : List TimedEvent
  duration : HrTime
  ended : Bool
  resource : OtelResource
  instrumentationScope : InstrumentationScope
  droppedAttributesCount : Nat
  droppedEventsCount : Nat
  droppedLinksCount : Nat
deriving DecidableEq

/-- Source lines 38-111, the `OtelSpan` constructor.  The unused
`parentSpanId` constructor parameter is omitted; `resource` is optional and
defaults to the empty object (`resource || {}`; a present object is always
truthy).  Event attributes follow the object-literal order message, type,
then the conditionally-spread stacktrace (`details?.stack &&` is a truthiness
test, so an empty stack string is not attached). -/
def mkOtelSpan (span : ExportedSpan) (scope : InstrumentationScope)
    (resource : Option OtelResource) : OtelSpan :=
  let startTime := dateToHrTime span.startTime
  { name := getSpanName span
    kind := getSpanKind span.type
    attributes := getAttributes span
    startTime := startTime
    endTime :=
      match span.endTime with
      | some e => dateToHrTime e
      | none => startTime
    ended := span.endTime.isSome
    duration :=
      match span.endTime with
      | some e =>
          let durationMs := e - span.startTime
          (Int.fdiv durationMs 1000, Int.tmod durationMs 1000 * 1000000)
      | none => (0, 0)
    status :=
      match span.errorInfo with
      | some errorInfo => { code := .ERROR, message := some errorInfo.message }
      | none =>
        match span.endTime with
        | some _ => { code := .OK }
        | none => { code := .UNSET }
    events :=
      match span.errorInfo with
      | some errorInfo =>
          [{ name := "exception"
             attributes :=
               let ea : AttrMap :=
                 [("exception.message", .str errorInfo.message),
                  ("exception.type", .str "Error")]
               match errorInfo.details.bind (fun d => d.stack) with
               | some st =>
                   if st != "" then ea ++ [("exception.stacktrace", .str st)] else ea
               | none => ea
             time := startTime
             droppedAttributesCount := 0 }]
      | none => []
    spanContext :=
      { traceId := span.traceId
        spanId := span.id
        traceFlags := TraceFlagsSAMPLED
        isRemote := false }
    parentSpanContext :=
      match span.parentSpanId with
      | some p =>
          if p != "" then
            some { traceId := span.traceId
                   spanId := p
                   traceFlags := TraceFlagsSAMPLED
                   isRemote := false }
          else none
      | none => none
    links := []
    resource := resource.getD { attrs := [] }
    instrumentationScope := scope
    droppedAttributesCount := 0
    droppedEventsCount := 0
    droppedLinksCount := 0 }

/-- State of the single cached `initPromise` of a `SpanConverter`.  A
JavaScript promise settles at most once, and the source assigns
`this.initPromise` only when it is unset and never clears it, which this type
encodes by construction of the step relation below. -/
inductive InitPromiseState where
  | noPromise
  | inFlight
  | resolvedOk (resource : OtelResource) (scope : InstrumentationScope)
  | rejected
deriving DecidableEq

/-- Observable state of one `SpanConverter` instance: the cached promise, the
`resource` / `scope` fields, how many shared-context resolutions have been
started, the spans produced by completed `convertSpan` calls (most recent
first), and how many `convertSpan` calls have failed. -/
structure ConverterState where
  promise : InitPromiseState
  resource : Option OtelResource
  scope : Option InstrumentationScope
  resolutionsStarted : Nat
  produced : List OtelSpan
  failedCalls : Nat
deriving DecidableEq

/-- Fresh converter: no promise, no cached context, nothing produced. -/
def ConverterState.initial : ConverterState :=
  { promise := .noPromise
    resource := none
    scope := none
    resolutionsStarted := 0
    produced := []
    failedCalls := 0 }

/-- Small-step semantics of a `SpanConverter` instance under the JavaScript
cooperative-scheduling model.  Each constructor is one synchronous region of
the source between `await` suspension points:

* `startInit` — `initIfNeeded` lines 60-93: the `this.initPromise` check and
  the assignment of the freshly started resolution happen with no suspension
  in between, hence as one atomic step, and only when no promise exists yet;
  when a promise already exists the call just returns it, changing nothing.
* `finishInitOk` — the resolution body runs to completion: it stores
  `this.resource` and `this.scope` (lines 86-90) and the promise resolves.
  The resolved values are arbitrary, modelling whatever the version lookups
  returned.
* `finishInitFail` — the resolution body throws, the promise rejects; no field
  is written (the stores at lines 86-90 are only reached on success) and
  `this.initPromise` keeps holding the rejected promise.
* `convertOk` — `convertSpan` lines 99-113 after the awaited promise resolved:
  the guard on lines 102-106 passes and a span is produced from the cached
  fields.
* `convertRejected` — `convertSpan` whose awaited promise rejected: the call
  fails.
* `convertGuardFail` — `convertSpan` whose await succeeded but whose
  `this.resource` / `this.scope` guard fails, throwing the safety-net error.
-/
inductive ConverterStep : ConverterState → ConverterState → Prop where
  | startInit (s : ConverterState) :
      s.promise = .noPromise →
      ConverterStep s
        { s with promise := .inFlight,
                 resolutionsStarted := s.resolutionsStarted + 1 }
  | finishInitOk (s : ConverterState) (r : OtelResource) (sc : InstrumentationScope) :
      s.promise = .inFlight →
      ConverterStep s
        { s with promise := .resolvedOk r sc,
                 resource := some r,
                 scope := some sc }
  | finishInitFail (s : ConverterState) :
      s.promise = .inFlight →
      ConverterStep s { s with promise := .rejected }
  | convertOk (s : ConverterState) (span : ExportedSpan)
      (r : OtelResource) (sc : InstrumentationScope)
      (r' : OtelResource) (sc' : InstrumentationScope) :
      s.promise = .resolvedOk r sc →
      s.resource = some r' →
      s.scope = some sc' →
      ConverterStep s
        { s with produced := mkOtelSpan span sc' (some r') :: s.produced }
  | convertRejected (s : ConverterState) :
      s.promise = .rejected →
      ConverterStep s { s with failedCalls := s.failedCalls + 1 }
  | convertGuardFail (s : ConverterState) (r : OtelResource) (sc : InstrumentationScope) :
      s.promise = .resolvedOk r sc →
      (s.resource = none ∨ s.scope = none) →
      ConverterStep s { s with failedCalls := s.failedCalls + 1 }

/-- Reachability in zero or more converter steps. -/
def ConverterReachable : ConverterState → ConverterState → Prop :=
  Relation.ReflTransGen ConverterStep

/-! Shared concrete values used by witnesses and counterexamples. -/

/-- Instrumentation scope used in concrete evaluations. -/
def scope0 : InstrumentationScope := { name := "@mastra/otel-exporter", version := "unknown" }

/-- Resource used in concrete evaluations. -/
def res0 : OtelResource := { attrs := [("service.name", "mastra-service")] }

/-- Concrete span with a present-but-empty `parentSpanId`. -/
def spanEmptyParent : ExportedSpan :=
  { id := "s1", traceId := "t1", name := "child", startTime := 1000,
    parentSpanId := some "", data := .OTHER }

/-- C1 counterexample input: a span with a present, non-empty parent id. -/
def spanWithParent : ExportedSpan :=
  { id := "s2", traceId := "t2", name := "child", startTime := 1000,
    parentSpanId := some "p7", data := .OTHER }

/-- C1 counterexample: the claim says a parent span context is present iff the
input has `parentSpanId`; the source guard `if (span.parentSpanId)` is a
truthiness test, so a span whose `parentSpanId` is the empty string has the
field present yet gets no parent span context. -/
theorem empty_parentSpanId_drops_parent_context :
    spanEmptyParent.parentSpanId.isSome = true ∧
    (mkOtelSpan spanEmptyParent scope0 (some res0)).parentSpanContext = none := by
  constructor
  · rfl
  · rfl

/-- C1 (amended): the produced span context copies `id` and `traceId`
verbatim; a parent span context is present iff the input has a non-empty
`parentSpanId`, and when present it copies `parentSpanId` and `traceId`
verbatim; no identifier is synthesized. -/
theorem span_identity_preservation (span : ExportedSpan)
    (scope : InstrumentationScope) (resource : Option OtelResource) :
    (mkOtelSpan span scope resource).spanContext.spanId = span.id ∧
    (mkOtelSpan span scope resource).spanContext.traceId = span.traceId ∧
    ((mkOtelSpan span scope resource).parentSpanContext.isSome ↔
      ∃ p, span.parentSpanId = some p ∧ p ≠ "") ∧
    (∀ p, span.parentSpanId = some p → p ≠ "" →
      (mkOtelSpan span scope resource).parentSpanContext =
        some { traceId := span.traceId, spanId := p,
               traceFlags := TraceFlagsSAMPLED, isRemote := false }) := by
  refine ⟨rfl, rfl, ?_, ?_⟩
  · cases h : span.parentSpanId with
    | none => simp [mkOtelSpan, h]
    | some p =>
      by_cases hp : p = "" <;> simp [mkOtelSpan, h, hp]
  · intro p hp hne
    simp [mkOtelSpan, hp, hne]

/-- C1 witness: the amended theorem evaluated at a concrete span whose parent
id is the non-empty string "p7". -/
theorem span_identity_preservation_witness :
    (mkOtelSpan spanWithParent scope0 (some res0)).spanContext.spanId = spanWithParent.id ∧
    (mkOtelSpan spanWithParent scope0 (some res0)).spanContext.traceId = spanWithParent.traceId ∧
    ((mkOtelSpan spanWithParent scope0 (some res0)).parentSpanContext.isSome ↔
      ∃ p, spanWithParent.parentSpanId = some p ∧ p ≠ "") ∧
    (∀ p, spanWithParent.parentSpanId = some p → p ≠ "" →
      (mkOtelSpan spanWithParent scope0 (some res0)).parentSpanContext =
        some { traceId := spanWithParent.traceId, spanId := p,
               traceFlags := TraceFlagsSAMPLED, isRemote := false }) :=
  span_identity_preservation spanWithParent scope0 (some res0)

/-- C2 counterexample input: an errored span whose `errorInfo.details.stack`
is the empty string. -/
def spanEmptyStack : ExportedSpan :=
  { id := "s3", traceId := "t3", name := "boom", startTime := 1000,
    data := .OTHER,
    errorInfo := some { message := "it broke", details := some { stack := some "" } } }

/-- C2 witness input: an errored span with a non-empty stack, and an ended and
an open error-free span. -/
def spanWithStack : ExportedSpan :=
  { id := "s4", traceId := "t4", name := "boom", startTime := 2000,
    data := .OTHER,
    errorInfo := some { message := "it broke", details := some { stack := some "at f" } } }

/-- C2 counterexample: the claim says the exception event carries
`exception.stacktrace` iff a stack string is present in `errorInfo.details`;
the source guard `span.errorInfo.details?.stack &&` is a truthiness test, so
an errored span whose stack string is present but empty gets an exception
event without the stacktrace attribute. -/
theorem empty_stack_omits_stacktrace :
    (spanEmptyStack.errorInfo.bind (fun e => e.details.bind (fun d => d.stack))).isSome
      = true ∧
    ((mkOtelSpan spanEmptyStack scope0 (some res0)).events.map
      (fun ev => ev.attributes.map (fun p => p.1))) =
      [["exception.message", "exception.type"]] := by
  constructor
  · rfl
  · rfl

/-- C2 (amended): status derivation is ordered and first-match-wins: with
`errorInfo` present the status code is ERROR with the error message and the
events list is exactly one "exception" event carrying `exception.message`, the
literal type tag `Error`, and `exception.stacktrace` iff a non-empty stack
string is present in `errorInfo.details`, timestamped at the span's start
time; otherwise with `endTime` present the status is OK and the events list is
empty; otherwise the status is UNSET and the events list is empty. -/
theorem status_and_event_derivation (span : ExportedSpan)
    (scope : InstrumentationScope) (resource : Option OtelResource) :
    (∀ e, span.errorInfo = some e →
      (mkOtelSpan span scope resource).status =
        { code := .ERROR, message := some e.message } ∧
      (mkOtelSpan span scope resource).events =
        [{ name := "exception"
           attributes :=
             [("exception.message", .str e.message),
              ("exception.type", .str "Error")] ++
             (match e.details.bind (fun d => d.stack) with
              | some st => if st ≠ "" then [("exception.stacktrace", .str st)] else []
              | none => [])
           time := dateToHrTime span.startTime
           droppedAttributesCount := 0 }]) ∧
    (span.errorInfo = none → ∀ t, span.endTime = some t →
      (mkOtelSpan span scope resource).status = { code := .OK, message := none } ∧
      (mkOtelSpan span scope resource).events = []) ∧
    (span.errorInfo = none → span.endTime = none →
      (mkOtelSpan span scope resource).status = { code := .UNSET, message := none } ∧
      (mkOtelSpan span scope resource).events = []) := by
  refine ⟨?_, ?_, ?_⟩
  · intro e he
    constructor
    · simp [mkOtelSpan, he]
    · simp only [mkOtelSpan, he]
      cases hst : e.details.bind (fun d => d.stack) with
      | none => simp [hst]
      | some st =>
        by_cases hse : st = "" <;> simp [hst, hse]
  · intro he t ht
    constructor <;> simp [mkOtelSpan, he, ht]
  · intro he ht
    constructor <;> simp [mkOtelSpan, he, ht]

/-- C2 witness: the amended theorem evaluated at an errored span with a
non-empty stack string. -/
theorem status_and_event_derivation_witness :
    (mkOtelSpan spanWithStack scope0 (some res0)).status =
      { code := .ERROR, message := some "it broke" } ∧
    (mkOtelSpan spanWithStack scope0 (some res0)).events =
      [{ name := "exception"
         attributes :=
           [("exception.message", .str "it broke"),
            ("exception.type", .str "Error"),
            ("exception.stacktrace", .str "at f")]
         time := dateToHrTime 2000
         droppedAttributesCount := 0 }] := by
  have h := (status_and_event_derivation spanWithStack scope0 (some res0)).1
    { message := "it broke", details := some { stack := some "at f" } } rfl
  exact ⟨h.1, h.2.trans (by decide)⟩

/-- C5 witness input: an ended span (start 1000 ms, end 3500 ms). -/
def spanEnded : ExportedSpan :=
  { id := "s5", traceId := "t5", name := "n", startTime := 1000,
    endTime := some 3500, data := .OTHER }

/-- C5: wall-clock timestamps become (seconds, nanoseconds) pairs via floor
division of the millisecond value by 1000 and the JavaScript millisecond
remainder times 1,000,000; an open span reuses its start time as end time with
the zero duration pair and `ended = false`; an ended span has `ended = true`
and its duration computed by the same formula from `endTime - startTime`. -/
theorem timing_derivation (span : ExportedSpan)
    (scope : InstrumentationScope) (resource : Option OtelResource) :
    (∀ ms : Int, dateToHrTime ms = (Int.fdiv ms 1000, Int.tmod ms 1000 * 1000000)) ∧
    (mkOtelSpan span scope resource).startTime = dateToHrTime span.startTime ∧
    (span.endTime = none →
      (mkOtelSpan span scope resource).endTime = (mkOtelSpan span scope resource).startTime ∧
      (mkOtelSpan span scope resource).duration = (0, 0) ∧
      (mkOtelSpan span scope resource).ended = false) ∧
    (∀ t, span.endTime = some t →
      (mkOtelSpan span scope resource).ended = true ∧
      (mkOtelSpan span scope resource).endTime = dateToHrTime t ∧
      (mkOtelSpan span scope resource).duration =
        (Int.fdiv (t - span.startTime) 1000,
         Int.tmod (t - span.startTime) 1000 * 1000000)) := by
  refine ⟨fun ms => rfl, rfl, ?_, ?_⟩
  · intro h
    refine ⟨?_, ?_, ?_⟩ <;> simp [mkOtelSpan, h]
  · intro t h
    refine ⟨?_, ?_, ?_⟩ <;> simp [mkOtelSpan, h]

/-- C5 witness: the theorem evaluated at an ended span; duration of 2500 ms is
the pair (2, 500000000). -/
theorem timing_derivation_witness :
    (mkOtelSpan spanEnded scope0 (some res0)).ended = true ∧
    (mkOtelSpan spanEnded scope0 (some res0)).duration = (2, 500000000) := by
  have h := (timing_derivation spanEnded scope0 (some res0)).2.2.2 3500 rfl
  exact ⟨h.1, h.2.2.trans (by decide)⟩

/-- C10 witness input: a span with a non-empty parent id. -/
def spanForConstants : ExportedSpan :=
  { id := "s10", traceId := "t10", name := "n", startTime := 0,
    parentSpanId := some "par", data := .OTHER }

/-- C10: every converted span has an empty links list, zero dropped
attribute / event / link counts, and every span context it exposes (own and
parent, when present) carries traceFlags = SAMPLED and isRemote = false. -/
theorem constant_output_fields (span : ExportedSpan)
    (scope : InstrumentationScope) (resource : Option OtelResource) :
    (mkOtelSpan span scope resource).links = [] ∧
    (mkOtelSpan span scope resource).droppedAttributesCount = 0 ∧
    (mkOtelSpan span scope resource).droppedEventsCount = 0 ∧
    (mkOtelSpan span scope resource).droppedLinksCount = 0 ∧
    (mkOtelSpan span scope resource).spanContext.traceFlags = TraceFlagsSAMPLED ∧
    (mkOtelSpan span scope resource).spanContext.isRemote = false ∧
    (∀ p, (mkOtelSpan span scope resource).parentSpanContext = some p →
      p.traceFlags = TraceFlagsSAMPLED ∧ p.isRemote = false) := by
  refine ⟨rfl, rfl, rfl, rfl, rfl, rfl, ?_⟩
  intro p hp
  cases h : span.parentSpanId with
  | none => simp [mkOtelSpan, h] at hp
  | some q =>
    by_cases hq : q = ""
    · simp [mkOtelSpan, h, hq] at hp
    · simp [mkOtelSpan, h, hq] at hp
      simp [← hp]

/-- C10 witness: the theorem evaluated at a concrete span with a parent. -/
theorem constant_output_fields_witness :
    (mkOtelSpan spanForConstants scope0 (some res0)).links = [] ∧
    (∀ p, (mkOtelSpan spanForConstants scope0 (some res0)).parentSpanContext = some p →
      p.traceFlags = TraceFlagsSAMPLED ∧ p.isRemote = false) :=
  ⟨(constant_output_fields spanForConstants scope0 (some res0)).1,
   (constant_output_fields spanForConstants scope0 (some res0)).2.2.2.2.2.2⟩

/-- C6 counterexample input: a MODEL_GENERATION span whose `model` is the
present-but-empty string. -/
def spanEmptyModelId : ExportedSpan :=
  { id := "s6", traceId := "t6", name := "Raw!Name", startTime := 0,
    data := .MODEL_GENERATION (some { model := some "" }) }

/-- C6 witness input: AGENT_RUN span with agentName "Router". -/
def spanRouter : ExportedSpan :=
  { id := "s7", traceId := "t7", name := "n", startTime := 0,
    data := .AGENT_RUN (some { agentName := some "Router", instructions := "be helpful" }) }

/-- C6 witness input: AGENT_RUN span with neither name nor id. -/
def spanAgentAnon : ExportedSpan :=
  { id := "s8", traceId := "t8", name := "n", startTime := 0,
    data := .AGENT_RUN (some { instructions := "be helpful" }) }

/-- C6 counterexample: the claim says every span of a kind with a natural
identifier is named "operation identifier"; the source test `if (identifier)`
is a truthiness check, so a MODEL_GENERATION span whose model is the empty
string (present, hence not replaced by the "unknown" default) falls back to
the sanitized original name instead of "chat ". -/
theorem empty_identifier_falls_back_to_sanitized_name :
    getSpanIdentifier spanEmptyModelId = some "" ∧
    (mkOtelSpan spanEmptyModelId scope0 (some res0)).name = "RawName" ∧
    (mkOtelSpan spanEmptyModelId scope0 (some res0)).name ≠
      getOperationName spanEmptyModelId ++ " " ++ "" := by
  refine ⟨rfl, rfl, by decide⟩

/-- C6 (amended): for a kind with a natural identifier (model name, tool id,
agent name-or-id, workflow id, each defaulting to "unknown" when absent) whose
identifier is non-empty, the derived name is "operation identifier" with the
fixed verbs chat / execute_tool / invoke_agent / invoke_workflow; when the
identifier is the (present) empty string, or the kind has no natural
identifier, the derived name is the original span name with all characters
outside letters, digits, dot, underscore, space and dash stripped. -/
theorem span_naming (span : ExportedSpan)
    (scope : InstrumentationScope) (resource : Option OtelResource) :
    (∀ i, getSpanIdentifier span = some i → i ≠ "" →
      (mkOtelSpan span scope resource).name = getOperationName span ++ " " ++ i) ∧
    (getSpanIdentifier span = none →
      (mkOtelSpan span scope resource).name = sanitizeSpanName span.name) ∧
    (getSpanIdentifier span = some "" →
      (mkOtelSpan span scope resource).name = sanitizeSpanName span.name) ∧
    (∀ a, span.data = .MODEL_GENERATION a →
      getSpanIdentifier span = some ((a.bind (fun x => x.model)).getD "unknown") ∧
      getOperationName span = "chat") ∧
    (∀ a, span.data = .TOOL_CALL a →
      getSpanIdentifier span = some ((a.bind (fun x => x.toolId)).getD "unknown") ∧
      getOperationName span = "execute_tool") ∧
    (∀ a, span.data = .MCP_TOOL_CALL a →
      getSpanIdentifier span = some ((a.bind (fun x => x.toolId)).getD "unknown") ∧
      getOperationName span = "execute_tool") ∧
    (∀ a, span.data = .AGENT_RUN a →
      getSpanIdentifier span =
        some (((a.bind (fun x => x.agentName)).orElse
          (fun _ => a.bind (fun x => x.agentId))).getD "unknown") ∧
      getOperationName span = "invoke_agent") ∧
    (∀ a, span.data = .WORKFLOW_RUN a →
      getSpanIdentifier span = some ((a.bind (fun x => x.workflowId)).getD "unknown") ∧
      getOperationName span = "invoke_workflow") ∧
    (span.data = .OTHER →
      (mkOtelSpan span scope resource).name = sanitizeSpanName span.name) := by
  have hname : (mkOtelSpan span scope resource).name = getSpanName span := rfl
  refine ⟨?_, ?_, ?_, ?_, ?_, ?_, ?_, ?_, ?_⟩
  · intro i hi hne
    rw [hname]; simp [getSpanName, hi, hne]
  · intro h
    rw [hname]; simp [getSpanName, h]
  · intro h
    rw [hname]; simp [getSpanName, h]
  · intro a ha
    exact ⟨by simp [getSpanIdentifier, ha],
           by simp [getOperationName, ExportedSpan.type, SpanKindData.type, ha]⟩
  · intro a ha
    exact ⟨by simp [getSpanIdentifier, ha],
           by simp [getOperationName, ExportedSpan.type, SpanKindData.type, ha]⟩
  · intro a ha
    exact ⟨by simp [getSpanIdentifier, ha],
           by simp [getOperationName, ExportedSpan.type, SpanKindData.type, ha]⟩
  · intro a ha
    exact ⟨by simp [getSpanIdentifier, ha],
           by simp [getOperationName, ExportedSpan.type, SpanKindData.type, ha]⟩
  · intro a ha
    exact ⟨by simp [getSpanIdentifier, ha],
           by simp [getOperationName, ExportedSpan.type, SpanKindData.type, ha]⟩
  · intro h
    rw [hname]; simp [getSpanName, getSpanIdentifier, h]

/-- C6 witness: the amended theorem evaluated on the agent spans of the claim:
agentName "Router" gives "invoke_agent Router", and neither name nor id gives
"invoke_agent unknown". -/
theorem span_naming_witness :
    (mkOtelSpan spanRouter scope0 (some res0)).name = "invoke_agent Router" ∧
    (mkOtelSpan spanAgentAnon scope0 (some res0)).name = "invoke_agent unknown" := by
  have h1 := (span_naming spanRouter scope0 (some res0)).1 "Router" (by decide) (by decide)
  have h2 := (span_naming spanAgentAnon scope0 (some res0)).1 "unknown" (by decide) (by decide)
  exact ⟨h1.trans (by decide), h2.trans (by decide)⟩

/-- C7: the provider normalizer is total (a Lean function) and
case-insensitive in the sense that inputs equal up to lowercasing normalize
identically; the input is reduced to lowercase letters and digits and matched
against the alias table with the first exact match winning; with no match the
lowercased original is returned; "Claude" gives "anthropic", "x-ai" gives
"x_ai", "my-custom-llm" gives "my-custom-llm". -/
theorem provider_normalization (s t : String) :
    (jsToLower s = jsToLower t → normalizeProvider s = normalizeProvider t) ∧
    (PROVIDER_ALIASES.find?
        (fun e => e.2.contains (normalizeProviderString s)) = none →
      normalizeProvider s = jsToLower s) ∧
    (∀ canonical aliases,
      PROVIDER_ALIASES.find?
          (fun e => e.2.contains (normalizeProviderString s)) =
        some (canonical, aliases) →
      normalizeProvider s = canonical) ∧
    normalizeProvider "Claude" = "anthropic" ∧
    normalizeProvider "x-ai" = "x_ai" ∧
    normalizeProvider "my-custom-llm" = "my-custom-llm" := by
  refine ⟨?_, ?_, ?_, by decide, by decide, by decide⟩
  · intro h
    have hn : normalizeProviderString s = normalizeProviderString t := by
      unfold normalizeProviderString; rw [h]
    unfold normalizeProvider
    rw [hn, h]
  · intro h
    unfold normalizeProvider
    rw [h]
  · intro canonical aliases h
    unfold normalizeProvider
    rw [h]

/-- C7 witness: the theorem applied with its case-insensitivity hypothesis
discharged at "OpenAI" / "openai", plus the no-match fallback at
"my-custom-llm". -/
theorem provider_normalization_witness :
    normalizeProvider "OpenAI" = normalizeProvider "openai" ∧
    normalizeProvider "my-custom-llm" = "my-custom-llm" :=
  ⟨(provider_normalization "OpenAI" "openai").1 (by decide),
   (provider_normalization "my-custom-llm" "my-custom-llm").2.1 (by decide)⟩

/-- C8 failing input: an AGENT_RUN span with no attribute payload and one
metadata entry whose string value is the already-set attribute key
`gen_ai.operation.name`. -/
def spanMetaClobber : ExportedSpan :=
  { id := "s9", traceId := "t9", name := "n", startTime := 0,
    data := .AGENT_RUN none,
    metadata := some [("m", .str "gen_ai.operation.name")] }

/-- C8: evaluation of the code at the failing input.  The kind-specific
mapping sets `gen_ai.operation.name` to "invoke_agent"; the metadata pass then
executes the swapped assignment `attributes[value] = 'mastra.metadata.m'` with
value = "gen_ai.operation.name", overwriting the already-set attribute — the
claim says an already-set key's value is never changed by the metadata pass.
(The source's own comment, "Skip if attribute already exists", documents the
intended protection that the swapped assignment defeats.) -/
theorem metadata_value_overwrites_existing_attribute :
    getAttr (baseAttributes spanMetaClobber) "gen_ai.operation.name" =
      some (.str "invoke_agent") ∧
    getAttr (getAttributes spanMetaClobber) "gen_ai.operation.name" =
      some (.str "mastra.metadata.m") ∧
    getAttr (getAttributes spanMetaClobber) "gen_ai.operation.name" ≠
      getAttr (baseAttributes spanMetaClobber) "gen_ai.operation.name" := by
  refine ⟨rfl, rfl, by decide⟩

/-- C9 witness inputs: a map with one truthy attribute. -/
def mapC9 : AttrMap := [("gen_ai.operation.name", .str "chat")]

/-- C9: per metadata entry (k, v): a `null` / absent value is skipped; when
the key k is not already present among the produced attributes (and v is not
null), exactly the swapped assignment happens — the attribute key is the
serialized value (objects via their JSON serialization, primitives coerced to
a property key) and the attribute value is the prefixed metadata key
"mastra.metadata.k"; and `getAttributes` is the kind-specific base followed by
this pass over the metadata entries in order. -/
theorem metadata_swapped_key_value (m : AttrMap) (k : String) (v : MetaValue) :
    (addMetadataAttr m k .null = m) ∧
    (getAttr m k = none → v ≠ .null →
      addMetadataAttr m k v =
        setAttr m v.toAttrKey (.str ("mastra.metadata." ++ k))) ∧
    (∀ span entries, span.metadata = some entries →
      getAttributes span =
        entries.foldl (fun acc kv => addMetadataAttr acc kv.1 kv.2)
          (baseAttributes span)) := by
  refine ⟨?_, ?_, ?_⟩
  · unfold addMetadataAttr
    cases h : truthyAttr (getAttr m k) <;> simp [h]
  · intro hnone hv
    unfold addMetadataAttr
    rw [hnone]
    cases v with
    | null => exact absurd rfl hv
    | str s => simp [truthyAttr]
    | num n => simp [truthyAttr]
    | bool b => simp [truthyAttr]
    | obj j => simp [truthyAttr]
  · intro span entries h
    unfold getAttributes
    rw [h]

/-- C9 witness: the theorem applied at an absent key with a number value 7,
yielding the swapped attribute ("7" maps to "mastra.metadata.retries"). -/
theorem metadata_swapped_key_value_witness :
    addMetadataAttr mapC9 "retries" (.num 7) =
      setAttr mapC9 (MetaValue.num 7).toAttrKey (.str "mastra.metadata.retries") :=
  (metadata_swapped_key_value mapC9 "retries" (.num 7)).2.1 (by decide) (by decide)

/-- Invariant of a `SpanConverter` instance: at most one resolution is ever
started; before the single promise resolves nothing is cached and no span is
produced; once it resolves, the cached fields hold exactly the resolved values
and every produced span carries them. -/
def ConverterInv (s : ConverterState) : Prop :=
  s.resolutionsStarted ≤ 1 ∧
  (s.promise = .noPromise →
    s.resolutionsStarted = 0 ∧ s.resource = none ∧ s.scope = none ∧ s.produced = []) ∧
  (s.promise = .inFlight → s.resource = none ∧ s.scope = none ∧ s.produced = []) ∧
  (s.promise = .rejected → s.resource = none ∧ s.scope = none ∧ s.produced = []) ∧
  (∀ r sc, s.promise = .resolvedOk r sc →
    s.resource = some r ∧ s.scope = some sc ∧
    ∀ sp ∈ s.produced, sp.resource = r ∧ sp.instrumentationScope = sc)

/-- The invariant holds in the fresh converter state. -/
theorem converterInv_initial : ConverterInv ConverterState.initial := by
  refine ⟨by decide, ?_, ?_, ?_, ?_⟩ <;> simp [ConverterState.initial]

/-- Every converter step preserves the invariant. -/
theorem converterInv_step {s s' : ConverterState}
    (hs : ConverterInv s) (h : ConverterStep s s') : ConverterInv s' := by
  obtain ⟨h1, h2, h3, h4, h5⟩ := hs
  cases h with
  | startInit hp =>
    obtain ⟨hz, hr, hsc, hpr⟩ := h2 hp
    exact ⟨by simp [hz], by simp, fun _ => ⟨hr, hsc, hpr⟩, by simp, by simp⟩
  | finishInitOk r sc hp =>
    obtain ⟨hr, hsc, hpr⟩ := h3 hp
    refine ⟨h1, by simp, by simp, by simp, ?_⟩
    intro r' sc' hp'
    simp only [InitPromiseState.resolvedOk.injEq] at hp'
    obtain ⟨hr', hsc'⟩ := hp'
    subst hr'; subst hsc'
    simp [hpr]
  | finishInitFail hp =>
    obtain ⟨hr, hsc, hpr⟩ := h3 hp
    exact ⟨h1, by simp, by simp, fun _ => ⟨hr, hsc, hpr⟩, by simp⟩
  | convertOk span r sc r' sc' hp hr hsc =>
    obtain ⟨hres, hsco, hall⟩ := h5 r sc hp
    rw [hres, Option.some.injEq] at hr
    rw [hsco, Option.some.injEq] at hsc
    subst hr; subst hsc
    refine ⟨h1, by simp [hp], by simp [hp], by simp [hp], ?_⟩
    intro r2 sc2 hp2
    simp only [hp, InitPromiseState.resolvedOk.injEq] at hp2
    obtain ⟨hr2, hsc2⟩ := hp2
    subst hr2; subst hsc2
    refine ⟨hres, hsco, ?_⟩
    intro sp hsp
    simp only [List.mem_cons] at hsp
    cases hsp with
    | inl he => subst he; exact ⟨rfl, rfl⟩
    | inr hm => exact hall sp hm
  | convertRejected hp =>
    obtain ⟨hr, hsc, hpr⟩ := h4 hp
    exact ⟨h1, by simp [hp], by simp [hp], fun _ => ⟨hr, hsc, hpr⟩, by simp [hp]⟩
  | convertGuardFail r sc hp hfail =>
    exact ⟨h1, by simp [hp], by simp [hp], by simp [hp], fun r2 sc2 hp2 => h5 r2 sc2 hp2⟩

/-- The invariant holds in every state reachable from a fresh converter. -/
theorem converterInv_reachable {s : ConverterState}
    (h : ConverterReachable ConverterState.initial s) : ConverterInv s := by
  induction h with
  | refl => exact converterInv_initial
  | tail hab hbc ih => exact converterInv_step ih hbc

/-- C3 witness input span. -/
def spanC3 : ExportedSpan :=
  { id := "w1", traceId := "w2", name := "n", startTime := 0, data := .OTHER }

/-- C3 witness end state: one resolution completed, two spans produced. -/
def c3State : ConverterState :=
  { promise := .resolvedOk res0 scope0
    resource := some res0
    scope := some scope0
    resolutionsStarted := 1
    produced := [mkOtelSpan spanC3 scope0 (some res0), mkOtelSpan spanC3 scope0 (some res0)]
    failedCalls := 0 }

/-- C3: on a single `SpanConverter` instance, in every reachable state (over
any sequence of interleaved `convertSpan` calls, the `this.initPromise` check
and assignment being one synchronous region) at most one shared-context
resolution has ever been started — all callers await that single promise — and
every produced span carries identical resource and instrumentation-scope
values. -/
theorem single_flight_initialization (s : ConverterState)
    (h : ConverterReachable ConverterState.initial s) :
    s.resolutionsStarted ≤ 1 ∧
    ∀ a ∈ s.produced, ∀ b ∈ s.produced,
      a.resource = b.resource ∧ a.instrumentationScope = b.instrumentationScope := by
  obtain ⟨h1, h2, h3, h4, h5⟩ := converterInv_reachable h
  refine ⟨h1, ?_⟩
  intro a ha b hb
  cases hp : s.promise with
  | noPromise =>
    obtain ⟨_, _, _, hpr⟩ := h2 hp
    rw [hpr] at ha
    cases ha
  | inFlight =>
    obtain ⟨_, _, hpr⟩ := h3 hp
    rw [hpr] at ha
    cases ha
  | rejected =>
    obtain ⟨_, _, hpr⟩ := h4 hp
    rw [hpr] at ha
    cases ha
  | resolvedOk r sc =>
    obtain ⟨_, _, hall⟩ := h5 r sc hp
    obtain ⟨har, has⟩ := hall a ha
    obtain ⟨hbr, hbs⟩ := hall b hb
    exact ⟨har.trans hbr.symm, has.trans hbs.symm⟩

/-- C3 witness: the theorem evaluated at a concrete reachable state in which
two concurrent-style `convertSpan` calls completed after a single resolution. -/
theorem single_flight_initialization_witness :
    c3State.resolutionsStarted ≤ 1 ∧
    ∀ a ∈ c3State.produced, ∀ b ∈ c3State.produced,
      a.resource = b.resource ∧ a.instrumentationScope = b.instrumentationScope := by
  apply single_flight_initialization
  refine Relation.ReflTransGen.head (ConverterStep.startInit _ rfl) ?_
  refine Relation.ReflTransGen.head (ConverterStep.finishInitOk _ res0 scope0 rfl) ?_
  refine Relation.ReflTransGen.head
    (ConverterStep.convertOk _ spanC3 res0 scope0 res0 scope0 rfl rfl rfl) ?_
  exact Relation.ReflTransGen.single
    (ConverterStep.convertOk _ spanC3 res0 scope0 res0 scope0 rfl rfl rfl)

/-- State of a converter whose first (and only) shared-context resolution has
failed: the rejected promise is still cached in `initPromise`. -/
def failedState : ConverterState :=
  { promise := .rejected, resource := none, scope := none,
    resolutionsStarted := 1, produced := [], failedCalls := 0 }

/-- C4: evaluation of the code at the failing input.  A first `convertSpan`
whose resolution throws reaches `failedState` (so that call fails and nothing
is cached — that part of the claim holds); a second `convertSpan` call can
only fail again (`convertRejected`); and in every state reachable from
`failedState` the number of resolutions ever started stays 1 and no span is
ever produced: the source never clears `this.initPromise`, so no fresh
resolution is started, contradicting the claim (and spec sections 7 and 9:
"cleared on failure", "retried on the next call"). -/
theorem rejected_init_promise_is_cached :
    ConverterReachable ConverterState.initial failedState ∧
    ConverterStep failedState { failedState with failedCalls := 1 } ∧
    (∀ s, Relation.ReflTransGen ConverterStep failedState s →
      s.resolutionsStarted = 1 ∧ s.promise = .rejected ∧ s.resource = none ∧
      s.scope = none ∧ s.produced = []) := by
  refine ⟨?_, ?_, ?_⟩
  · refine Relation.ReflTransGen.head (ConverterStep.startInit _ rfl) ?_
    exact Relation.ReflTransGen.single (ConverterStep.finishInitFail _ rfl)
  · exact ConverterStep.convertRejected _ rfl
  · intro s h
    induction h with
    | refl => exact ⟨rfl, rfl, rfl, rfl, rfl⟩
    | tail hab hbc ih =>
      obtain ⟨i1, i2, i3, i4, i5⟩ := ih
      cases hbc with
      | startInit hp => rw [i2] at hp; cases hp
      | finishInitOk r sc hp => rw [i2] at hp; cases hp
      | finishInitFail hp => rw [i2] at hp; cases hp
      | convertOk span r sc r' sc' hp hr hsc => rw [i2] at hp; cases hp
      | convertRejected hp => exact ⟨i1, i2, i3, i4, i5⟩
      | convertGuardFail r sc hp hfail => rw [i2] at hp; cases hp

/-- C4 witness: the universally quantified part of the theorem applied at
`failedState` itself. -/
theorem rejected_init_promise_is_cached_witness :
    failedState.resolutionsStarted = 1 ∧ failedState.promise = .rejected ∧
    failedState.resource = none ∧ failedState.scope = none ∧
    failedState.produced = [] :=
  rejected_init_promise_is_cached.2.2 failedState Relation.ReflTransGen.refl

end Mastra
